import Mathlib

/-!
# check_task.c: task-port acquisition, a shallow embedding

The program under study is `src/src/check_task.c`.  Its two functions
`task_for_pid_wrapper` and `main` talk to the Mach kernel; here the kernel is
an explicit record of answers (`Kernel`) and every externally visible action
(kernel call, release, line of output) is appended to a trace of `Event`s, in
program order.

Conventions of the embedding:

* `mach_port_t` is a natural number, `MACH_PORT_NULL` is `0`; pointers to
  kernel-allocated arrays are natural numbers as well, `NULL` is `0`;
* `kern_return_t` and `pid_t` are integers, `KERN_SUCCESS` is `0`;
* a kernel call that does not return `KERN_SUCCESS` leaves its out-parameters
  untouched, so the C variable keeps the value it had before the call;
* an array returned by the kernel is a list, its count is the list's length;
  a count is a 32-bit `mach_msg_type_number_t`, so `count * sizeof(mach_port_t)`
  is computed in `size_t` without wrapping and is a plain product here;
* `mach_host_self()` and `mach_task_self()` are constant arguments of the
  calls and do not appear in the events.
-/

namespace CheckTask

/-! ## Constants of the Mach headers -/

/-- The null port name, `MACH_PORT_NULL`. -/
def MACH_PORT_NULL : Nat := 0

/-- The success code, `KERN_SUCCESS`. -/
def KERN_SUCCESS : Int := 0

/-- The null pointer. -/
def NULL : Nat := 0

/-- Size in bytes of a port name, `sizeof(mach_port_t)`. -/
def sizeof_mach_port_t : Nat := 4

/-! ## The kernel, as a record of answers -/

/-- One entry `tasks[j]` of a task array, with the answer of
`pid_for_task(tasks[j], &task_pid)`. -/
structure TaskEntry where
  /-- the port name stored in `tasks[j]` -/
  port : Nat
  /-- return code of `pid_for_task` on this entry -/
  pid_kr : Int
  /-- value written to `task_pid` when the call succeeds -/
  pid : Int
  deriving DecidableEq, Repr

/-- One entry `processor_sets[i]`, with the answers of
`host_processor_set_priv` and `processor_set_tasks` for it. -/
structure ProcessorSet where
  /-- the port name stored in `processor_sets[i]` -/
  name : Nat
  /-- return code of `host_processor_set_priv` -/
  priv_kr : Int
  /-- value written to `processor_set_priv` on success -/
  priv : Nat
  /-- return code of `processor_set_tasks` -/
  tasks_kr : Int
  /-- pointer written to `tasks` on success -/
  tasks_addr : Nat
  /-- contents of the task array (`task_count` is its length) -/
  tasks : List TaskEntry
  deriving DecidableEq, Repr

/-- Everything the kernel and the C library answer during one run. -/
structure Kernel where
  /-- return code of `host_get_host_priv_port` -/
  host_priv_kr : Int
  /-- value written to `host_priv_port` on success -/
  host_priv_port : Nat
  /-- return code of `processor_set_default` -/
  default_kr : Int
  /-- value written to `default_processor_set` on success -/
  default_processor_set : Nat
  /-- return code of `host_processor_sets` -/
  sets_kr : Int
  /-- pointer written to `processor_sets` on success -/
  sets_addr : Nat
  /-- contents of the processor-set array (`processor_set_count` is its length) -/
  processor_sets : List ProcessorSet
  /-- answer of `task_for_pid(mach_task_self(), pid, &task)`: code and port -/
  task_for_pid : Int → Int × Nat
  /-- the C library function `atoi` -/
  atoi : String → Int
  /-- answer of `getuid()` -/
  uid : Nat
  /-- answer of `geteuid()` -/
  euid : Nat

/-! ## Output lines and trace events -/

/-- The lines the program prints, one constructor per format string. -/
inductive Msg where
  /-- the four lines of `print_usage(prog)` -/
  | usage (prog : Option String)
  /-- "Failed to get host privileged port: %d" -/
  | failed_host_priv (kr : Int)
  /-- "Failed to get default processor set: %d" -/
  | failed_default_set (kr : Int)
  /-- "Failed to get processor sets: %d" -/
  | failed_processor_sets (kr : Int)
  /-- "Failed to get processor set priv for set %d: %d" -/
  | failed_set_priv (i : Nat) (kr : Int)
  /-- "Failed to get tasks from processor set %d: %d" -/
  | failed_tasks (i : Nat) (kr : Int)
  /-- "[+] Found target process %d in processor set %d" -/
  | found (pid : Int) (i : Nat)
  /-- "Target process %d not found in any processor set" -/
  | not_found (pid : Int)
  /-- "uid=%u euid=%u" -/
  | whoami (uid euid : Nat)
  /-- "Error: --method requires a value" -/
  | method_requires_value
  /-- "Error: Invalid or missing PID" -/
  | invalid_pid
  /-- "Error: Invalid method '%s'" -/
  | invalid_method (method : String)
  /-- "Target PID: %d" -/
  | target_pid (pid : Int)
  /-- "Method: %s" -/
  | method (method : String)
  /-- "---" -/
  | separator
  /-- "Trying traditional task_for_pid()..." -/
  | trying_traditional
  /-- "Trying processor set enumeration wrapper..." -/
  | trying_wrapper
  /-- "SUCCESS with task_for_pid (task port: 0x%x)" -/
  | success_task_for_pid (task : Nat)
  /-- "FAIL: task_for_pid failed (%d)" -/
  | fail_task_for_pid (kr : Int)
  /-- "SUCCESS with wrapper method (task port: 0x%x)" -/
  | success_wrapper (task : Nat)
  /-- "FAIL: Wrapper method failed to get task port" -/
  | fail_wrapper
  deriving DecidableEq, Repr

/-- The externally visible actions of the program. -/
inductive Event where
  /-- `host_get_host_priv_port(mach_host_self(), &host_priv_port)` -/
  | host_get_host_priv_port
  /-- `processor_set_default(host_priv_port, &default_processor_set)` -/
  | processor_set_default (host_priv_port : Nat)
  /-- `host_processor_sets(host_priv_port, &processor_sets, &processor_set_count)` -/
  | host_processor_sets (host_priv_port : Nat)
  /-- `host_processor_set_priv(host_priv_port, processor_sets[i], &processor_set_priv)` -/
  | host_processor_set_priv (host_priv_port : Nat) (set_name : Nat)
  /-- `processor_set_tasks(processor_set_priv, &tasks, &task_count)` -/
  | processor_set_tasks (processor_set_priv : Nat)
  /-- `pid_for_task(tasks[j], &task_pid)` -/
  | pid_for_task (task : Nat)
  /-- `task_for_pid(mach_task_self(), pid, &task)` -/
  | task_for_pid (pid : Int)
  /-- `mach_port_deallocate(mach_task_self(), port)` -/
  | mach_port_deallocate (port : Nat)
  /-- `vm_deallocate(mach_task_self(), addr, size)` -/
  | vm_deallocate (addr : Nat) (size : Nat)
  /-- `getuid()` -/
  | getuid
  /-- `geteuid()` -/
  | geteuid
  /-- a line written to standard error -/
  | stderr (m : Msg)
  /-- a line written to standard output -/
  | stdout (m : Msg)
  deriving DecidableEq, Repr

/-! ## `task_for_pid_wrapper` (check_task.c, lines 19-114) -/

/-- The matching loop, lines 70-85: walks `tasks[j]` in order, calling
`pid_for_task` on each; stops at the first entry whose call succeeds with
`task_pid == target_pid` and yields that port (`some`, the `goto cleanup`), or
runs to the end of the array (`none`). -/
def findTask (target_pid : Int) : List TaskEntry → Option Nat × List Event
  | [] => (none, [])
  | t :: ts =>
    if t.pid_kr = KERN_SUCCESS ∧ t.pid = target_pid then
      (some t.port, [Event.pid_for_task t.port])
    else
      ((findTask target_pid ts).1, Event.pid_for_task t.port :: (findTask target_pid ts).2)

/-- The per-set release block, lines 87-92: every `tasks[j]`, then the array,
then the per-set privileged port. -/
def releaseSet (s : ProcessorSet) : List Event :=
  s.tasks.map (fun t => Event.mach_port_deallocate t.port) ++
    [Event.vm_deallocate s.tasks_addr (s.tasks.length * sizeof_mach_port_t),
     Event.mach_port_deallocate s.priv]

/-- The loop over processor sets, lines 53-95, from index `i` on.  The first
component is `some tasks[j]` when the loop is left by the `goto cleanup` of
line 83 and `none` when it runs to `processor_set_count`. -/
def scanSets (host_priv_port : Nat) (target_pid : Int) :
    List ProcessorSet → Nat → Option Nat × List Event
  | [], _ => (none, [])
  | s :: rest, i =>
    if s.priv_kr ≠ KERN_SUCCESS then
      ((scanSets host_priv_port target_pid rest (i + 1)).1,
        [Event.host_processor_set_priv host_priv_port s.name,
         Event.stderr (Msg.failed_set_priv i s.priv_kr)] ++
        (scanSets host_priv_port target_pid rest (i + 1)).2)
    else if s.tasks_kr ≠ KERN_SUCCESS then
      ((scanSets host_priv_port target_pid rest (i + 1)).1,
        [Event.host_processor_set_priv host_priv_port s.name,
         Event.processor_set_tasks s.priv,
         Event.stderr (Msg.failed_tasks i s.tasks_kr),
         Event.mach_port_deallocate s.priv] ++
        (scanSets host_priv_port target_pid rest (i + 1)).2)
    else
      match (findTask target_pid s.tasks).1 with
      | some t =>
        (some t,
          [Event.host_processor_set_priv host_priv_port s.name,
           Event.processor_set_tasks s.priv] ++
          (findTask target_pid s.tasks).2 ++
          [Event.stdout (Msg.found target_pid i)])
      | none =>
        ((scanSets host_priv_port target_pid rest (i + 1)).1,
          [Event.host_processor_set_priv host_priv_port s.name,
           Event.processor_set_tasks s.priv] ++
          (findTask target_pid s.tasks).2 ++ releaseSet s ++
          (scanSets host_priv_port target_pid rest (i + 1)).2)

/-- The `cleanup:` block, lines 101-111, on the current values of
`host_priv_port`, `default_processor_set`, `processor_sets` and
`processor_set_count`. -/
def cleanup (host_priv_port default_processor_set processor_sets
    processor_set_count : Nat) : List Event :=
  (if host_priv_port ≠ MACH_PORT_NULL then
    [Event.mach_port_deallocate host_priv_port] else []) ++
  (if default_processor_set ≠ MACH_PORT_NULL then
    [Event.mach_port_deallocate default_processor_set] else []) ++
  (if processor_sets ≠ NULL then
    [Event.vm_deallocate processor_sets (processor_set_count * sizeof_mach_port_t)] else [])

/-- Result of one call of `task_for_pid_wrapper`. -/
structure WrapperResult where
  /-- the returned `target_task` -/
  ret : Nat
  /-- the actions performed, in order -/
  trace : List Event
  deriving DecidableEq, Repr

/-- The function `task_for_pid_wrapper(target_pid)`, lines 19-114. -/
def task_for_pid_wrapper (k : Kernel) (target_pid : Int) : WrapperResult :=
  if k.host_priv_kr ≠ KERN_SUCCESS then
    { ret := MACH_PORT_NULL
      trace := [Event.host_get_host_priv_port,
                Event.stderr (Msg.failed_host_priv k.host_priv_kr)] ++
               cleanup MACH_PORT_NULL MACH_PORT_NULL NULL 0 }
  else if k.default_kr ≠ KERN_SUCCESS then
    { ret := MACH_PORT_NULL
      trace := [Event.host_get_host_priv_port,
                Event.processor_set_default k.host_priv_port,
                Event.stderr (Msg.failed_default_set k.default_kr)] ++
               cleanup k.host_priv_port MACH_PORT_NULL NULL 0 }
  else if k.sets_kr ≠ KERN_SUCCESS then
    { ret := MACH_PORT_NULL
      trace := [Event.host_get_host_priv_port,
                Event.processor_set_default k.host_priv_port,
                Event.host_processor_sets k.host_priv_port,
                Event.stderr (Msg.failed_processor_sets k.sets_kr)] ++
               cleanup k.host_priv_port k.default_processor_set NULL 0 }
  else
    match (scanSets k.host_priv_port target_pid k.processor_sets 0).1 with
    | some t =>
      { ret := t
        trace := [Event.host_get_host_priv_port,
                  Event.processor_set_default k.host_priv_port,
                  Event.host_processor_sets k.host_priv_port] ++
                 (scanSets k.host_priv_port target_pid k.processor_sets 0).2 ++
                 cleanup k.host_priv_port k.default_processor_set k.sets_addr
                   k.processor_sets.length }
    | none =>
      { ret := MACH_PORT_NULL
        trace := [Event.host_get_host_priv_port,
                  Event.processor_set_default k.host_priv_port,
                  Event.host_processor_sets k.host_priv_port] ++
                 (scanSets k.host_priv_port target_pid k.processor_sets 0).2 ++
                 [Event.stderr (Msg.not_found target_pid)] ++
                 cleanup k.host_priv_port k.default_processor_set k.sets_addr
                   k.processor_sets.length }

/-! ## `main` (check_task.c, lines 116-216) -/

/-- Value of the leading decimal digits of a text, most significant first. -/
def digitsValue : List Char → Nat → Nat
  | [], acc => acc
  | c :: cs, acc =>
    if 48 ≤ c.toNat ∧ c.toNat ≤ 57 then digitsValue cs (acc * 10 + (c.toNat - 48)) else acc

/-- Saturation of an integer at the range of a 64-bit `long`, as `strtol`
does on overflow. -/
def clampLong (v : Int) : Int :=
  if v < -9223372036854775808 then -9223372036854775808
  else if 9223372036854775807 < v then 9223372036854775807
  else v

/-- Truncation of an integer to a 32-bit two's complement `int`. -/
def toInt32 (v : Int) : Int :=
  (v + 2147483648) % 4294967296 - 2147483648

/-- The C library function `atoi`, as `(int)strtol(s, NULL, 10)`: leading
white space is skipped, an optional sign is read, then the longest run of
decimal digits; a text without digits gives `0`; the value saturates at the
range of `long` and is then truncated to the 32 bits of an `int`. -/
def atoi (s : String) : Int :=
  toInt32 (clampLong
    (match s.toList.dropWhile (fun c => c.toNat = 32 ∨ (9 ≤ c.toNat ∧ c.toNat ≤ 13)) with
     | [] => 0
     | c :: cs =>
       if c.toNat = 45 then -(digitsValue cs 0 : Int)
       else if c.toNat = 43 then (digitsValue cs 0 : Int)
       else (digitsValue (c :: cs) 0 : Int)))

/-- The argument loop, lines 137-151, over `argv[i], argv[i+1], ...` with the
current values of `method` and `pid`.  `none` is the `return 2` of line 145
(`--method` is the last argument); otherwise the final `method` and `pid`. -/
def parseArgs (atoi : String → Int) : List String → String → Int → Option (String × Int)
  | [], method, pid => some (method, pid)
  | a :: rest, method, pid =>
    if a = "--method" then
      match rest with
      | [] => none
      | v :: rest2 => parseArgs atoi rest2 v pid
    else if pid = -1 then
      parseArgs atoi rest method (atoi a)
    else
      parseArgs atoi rest method pid

/-- Result of one run of `main`. -/
structure MainResult where
  /-- the exit code -/
  code : Int
  /-- the actions performed, in order -/
  trace : List Event
  deriving DecidableEq, Repr

/-- The three lines printed before the strategy runs, lines 170-172. -/
def banner (method : String) (pid : Int) : List Event :=
  [Event.stdout (Msg.target_pid pid), Event.stdout (Msg.method method),
   Event.stdout Msg.separator]

/-- The block of lines 176-186 (repeated at 204-214): the direct call. -/
def runTraditional (k : Kernel) (pid : Int) : MainResult :=
  if (k.task_for_pid pid).1 = KERN_SUCCESS then
    { code := 0
      trace := [Event.stdout Msg.trying_traditional, Event.task_for_pid pid,
                Event.stdout (Msg.success_task_for_pid (k.task_for_pid pid).2),
                Event.mach_port_deallocate (k.task_for_pid pid).2] }
  else
    { code := 1
      trace := [Event.stdout Msg.trying_traditional, Event.task_for_pid pid,
                Event.stdout (Msg.fail_task_for_pid (k.task_for_pid pid).1)] }

/-- The block of lines 190-200: the enumeration wrapper. -/
def runWrapper (k : Kernel) (pid : Int) : MainResult :=
  if (task_for_pid_wrapper k pid).ret ≠ MACH_PORT_NULL then
    { code := 0
      trace := [Event.stdout Msg.trying_wrapper] ++ (task_for_pid_wrapper k pid).trace ++
               [Event.stdout (Msg.success_wrapper (task_for_pid_wrapper k pid).ret),
                Event.mach_port_deallocate (task_for_pid_wrapper k pid).ret] }
  else
    { code := 1
      trace := [Event.stdout Msg.trying_wrapper] ++ (task_for_pid_wrapper k pid).trace ++
               [Event.stdout Msg.fail_wrapper] }

/-- The function `main(argc, argv)`, lines 116-216; `argc` is the length of
`argv`. -/
def main (k : Kernel) (argv : List String) : MainResult :=
  match argv with
  | [] => { code := 2, trace := [Event.stderr (Msg.usage none)] }
  | [prog] => { code := 2, trace := [Event.stderr (Msg.usage (some prog))] }
  | prog :: a1 :: rest =>
    if a1 = "--whoami" then
      { code := 0
        trace := [Event.getuid, Event.geteuid, Event.stdout (Msg.whoami k.uid k.euid)] }
    else if a1 = "--help" ∨ a1 = "-h" then
      { code := 0, trace := [Event.stderr (Msg.usage (some prog))] }
    else
      match parseArgs k.atoi (a1 :: rest) "traditional" (-1) with
      | none =>
        { code := 2
          trace := [Event.stderr Msg.method_requires_value,
                    Event.stderr (Msg.usage (some prog))] }
      | some (method, pid) =>
        if pid ≤ 1 then
          { code := 2
            trace := [Event.stderr Msg.invalid_pid, Event.stderr (Msg.usage (some prog))] }
        else if method ≠ "traditional" ∧ method ≠ "wrapper" then
          { code := 2
            trace := [Event.stderr (Msg.invalid_method method),
                      Event.stderr (Msg.usage (some prog))] }
        else if method = "traditional" then
          { code := (runTraditional k pid).code
            trace := banner method pid ++ (runTraditional k pid).trace }
        else if method = "wrapper" then
          { code := (runWrapper k pid).code
            trace := banner method pid ++ (runWrapper k pid).trace }
        else
          { code := (runTraditional k pid).code
            trace := banner method pid ++ (runTraditional k pid).trace }

/-! ## Sample kernels -/

/-- A kernel with one processor set holding two tasks, the first of which is
the process 4321. -/
def kernelOneSet : Kernel where
  host_priv_kr := 0
  host_priv_port := 100
  default_kr := 0
  default_processor_set := 101
  sets_kr := 0
  sets_addr := 4096
  processor_sets :=
    [{ name := 200, priv_kr := 0, priv := 300, tasks_kr := 0, tasks_addr := 8192,
       tasks := [{ port := 400, pid_kr := 0, pid := 4321 },
                 { port := 401, pid_kr := 0, pid := 77 }] }]
  task_for_pid := fun _ => (5, 0)
  atoi := atoi
  uid := 501
  euid := 501

/-! ## Vocabulary of the claims -/

/-- A task entry resolves to `target_pid`: `pid_for_task` succeeds on it and
yields `target_pid`. -/
def resolves (target_pid : Int) (t : TaskEntry) : Prop :=
  t.pid_kr = KERN_SUCCESS ∧ t.pid = target_pid

instance (target_pid : Int) (t : TaskEntry) : Decidable (resolves target_pid t) := by
  unfold resolves; infer_instance

/-- A processor set is reachable: both `host_processor_set_priv` and
`processor_set_tasks` succeed for it. -/
def reachable (s : ProcessorSet) : Prop :=
  s.priv_kr = KERN_SUCCESS ∧ s.tasks_kr = KERN_SUCCESS

instance (s : ProcessorSet) : Decidable (reachable s) := by
  unfold reachable; infer_instance

/-- A processor set holds the target: it is reachable and one of its task
entries resolves to `target_pid`. -/
def hasTarget (target_pid : Int) (s : ProcessorSet) : Prop :=
  reachable s ∧ ∃ t ∈ s.tasks, resolves target_pid t

/-- The three fatal acquisitions of the wrapper all succeed. -/
def setupSucceeds (k : Kernel) : Prop :=
  k.host_priv_kr = KERN_SUCCESS ∧ k.default_kr = KERN_SUCCESS ∧ k.sets_kr = KERN_SUCCESS

instance (k : Kernel) : Decidable (setupSucceeds k) := by
  unfold setupSucceeds; infer_instance

/-- The three kernel calls that open a run of the wrapper whose setup succeeds. -/
def setupCalls (k : Kernel) : List Event :=
  [Event.host_get_host_priv_port, Event.processor_set_default k.host_priv_port,
   Event.host_processor_sets k.host_priv_port]

/-- The release actions: `mach_port_deallocate` and `vm_deallocate`. -/
def isRelease : Event → Bool
  | Event.mach_port_deallocate _ => true
  | Event.vm_deallocate _ _ => true
  | _ => false

/-- The releases of a trace, in order. -/
def releases (tr : List Event) : List Event := tr.filter isRelease

instance (target_pid : Int) (s : ProcessorSet) : Decidable (hasTarget target_pid s) := by
  unfold hasTarget; infer_instance

/-- The `mach_port_deallocate` actions. -/
def isPortRelease : Event → Bool
  | Event.mach_port_deallocate _ => true
  | _ => false

/-- The `vm_deallocate` actions. -/
def isArrayRelease : Event → Bool
  | Event.vm_deallocate _ _ => true
  | _ => false

/-- The per-set release blocks of a list of processor sets, in order. -/
def releaseAll : List ProcessorSet → List Event
  | [] => []
  | s :: rest => releaseSet s ++ releaseAll rest

/-- Total number of task entries of a list of processor sets. -/
def taskTotal : List ProcessorSet → Nat
  | [] => 0
  | s :: rest => s.tasks.length + taskTotal rest

/-- What the loop does for a set that is not reachable, at index `i`: a failed
`host_processor_set_priv` is logged and nothing is released; a failed
`processor_set_tasks` is logged and the per-set privileged port is released. -/
def failedSetEvents (host_priv_port : Nat) (s : ProcessorSet) (i : Nat) : List Event :=
  if s.priv_kr ≠ KERN_SUCCESS then
    [Event.host_processor_set_priv host_priv_port s.name,
     Event.stderr (Msg.failed_set_priv i s.priv_kr)]
  else
    [Event.host_processor_set_priv host_priv_port s.name,
     Event.processor_set_tasks s.priv,
     Event.stderr (Msg.failed_tasks i s.tasks_kr),
     Event.mach_port_deallocate s.priv]

/-- A kernel without processor sets: every acquisition succeeds and the
processor-set array is empty. -/
def kernelNoSets : Kernel where
  host_priv_kr := 0
  host_priv_port := 100
  default_kr := 0
  default_processor_set := 101
  sets_kr := 0
  sets_addr := 4096
  processor_sets := []
  task_for_pid := fun _ => (5, 0)
  atoi := atoi
  uid := 501
  euid := 501

/-- The kernel `kernelOneSet`, except that `processor_set_default` fails with
code 5. -/
def kernelDefaultFails : Kernel :=
  { kernelOneSet with default_kr := 5 }

/-- A kernel with three processor sets: the first refuses its privileged port,
the second refuses its task list, the third holds process 4321 twice. -/
def kernelThreeSets : Kernel where
  host_priv_kr := 0
  host_priv_port := 100
  default_kr := 0
  default_processor_set := 101
  sets_kr := 0
  sets_addr := 4096
  processor_sets :=
    [{ name := 200, priv_kr := 5, priv := 0, tasks_kr := 0, tasks_addr := 0, tasks := [] },
     { name := 201, priv_kr := 0, priv := 301, tasks_kr := 5, tasks_addr := 0, tasks := [] },
     { name := 202, priv_kr := 0, priv := 302, tasks_kr := 0, tasks_addr := 8192,
       tasks := [{ port := 400, pid_kr := 0, pid := 77 },
                 { port := 401, pid_kr := 0, pid := 4321 },
                 { port := 402, pid_kr := 0, pid := 4321 }] }]
  task_for_pid := fun _ => (5, 0)
  atoi := atoi
  uid := 501
  euid := 501

/-- A kernel with two reachable processor sets of two tasks each. -/
def kernelTwoSets : Kernel where
  host_priv_kr := 0
  host_priv_port := 100
  default_kr := 0
  default_processor_set := 101
  sets_kr := 0
  sets_addr := 4096
  processor_sets :=
    [{ name := 200, priv_kr := 0, priv := 300, tasks_kr := 0, tasks_addr := 8192,
       tasks := [{ port := 400, pid_kr := 0, pid := 77 },
                 { port := 401, pid_kr := 0, pid := 78 }] },
     { name := 201, priv_kr := 0, priv := 301, tasks_kr := 0, tasks_addr := 12288,
       tasks := [{ port := 402, pid_kr := 0, pid := 79 },
                 { port := 403, pid_kr := 5, pid := 0 }] }]
  task_for_pid := fun _ => (0, 500)
  atoi := atoi
  uid := 0
  euid := 0

/-- The first kernel call of each strategy: `task_for_pid` for the direct one,
`host_get_host_priv_port` for the wrapper. -/
def isStrategyStart : Event → Bool
  | Event.task_for_pid _ => true
  | Event.host_get_host_priv_port => true
  | _ => false

/-- Number of strategy invocations recorded in a trace. -/
def strategyCalls (tr : List Event) : Nat := (tr.filter isStrategyStart).length

/-- The invocation is a query: `argv[1]` is `--whoami`, `--help` or `-h`. -/
def isQuery (argv : List String) : Prop :=
  argv[1]? = some "--whoami" ∨ argv[1]? = some "--help" ∨ argv[1]? = some "-h"

instance (argv : List String) : Decidable (isQuery argv) := by
  unfold isQuery; infer_instance

/-- Outcome of the argument loop of `main` on `argv[1..]`. -/
def parsed (k : Kernel) (argv : List String) : Option (String × Int) :=
  parseArgs k.atoi argv.tail "traditional" (-1)

/-- The arguments are rejected: there is no argument, or (the invocation not
being a query) `--method` lacks its value, the pid is missing or at most 1, or
the method is unknown. -/
def argsRejected (k : Kernel) (argv : List String) : Prop :=
  argv.length < 2 ∨
  (¬ isQuery argv ∧
    (parsed k argv = none ∨
      ∃ m pid, parsed k argv = some (m, pid) ∧
        (pid ≤ 1 ∨ (m ≠ "traditional" ∧ m ≠ "wrapper"))))

/-- The arguments are accepted and select the strategy `m` for process `pid`. -/
def selected (k : Kernel) (argv : List String) (m : String) (pid : Int) : Prop :=
  2 ≤ argv.length ∧ ¬ isQuery argv ∧ parsed k argv = some (m, pid) ∧ 1 < pid ∧
    (m = "traditional" ∨ m = "wrapper")

/-- The task port a strategy obtains, if any: the direct call obtains one when
it returns `KERN_SUCCESS`, the wrapper when it returns a non-null port. -/
def strategyPort (k : Kernel) (m : String) (pid : Int) : Option Nat :=
  if m = "traditional" then
    (if (k.task_for_pid pid).1 = KERN_SUCCESS then some (k.task_for_pid pid).2 else none)
  else
    (if (task_for_pid_wrapper k pid).ret ≠ MACH_PORT_NULL then
      some (task_for_pid_wrapper k pid).ret else none)

/-- The actions of the strategy itself: the one kernel call of the direct
strategy, or the whole trace of the wrapper. -/
def strategyEvents (k : Kernel) (m : String) (pid : Int) : List Event :=
  if m = "traditional" then [Event.task_for_pid pid] else (task_for_pid_wrapper k pid).trace

/-- The lines `main` prints before it invokes the strategy. -/
def mainHead (m : String) (pid : Int) : List Event :=
  banner m pid ++
    [Event.stdout (if m = "traditional" then Msg.trying_traditional else Msg.trying_wrapper)]

/-- The line `main` prints on success. -/
def successLine (m : String) (task : Nat) : Msg :=
  if m = "traditional" then Msg.success_task_for_pid task else Msg.success_wrapper task

/-- The line `main` prints on failure. -/
def failLine (k : Kernel) (m : String) (pid : Int) : Msg :=
  if m = "traditional" then Msg.fail_task_for_pid (k.task_for_pid pid).1 else Msg.fail_wrapper

/-- A kernel with two processor sets: the first refuses its privileged port,
the second is reachable and its only task entry carries the null port name
while `pid_for_task` answers 4321 for it. -/
def kernelNullPort : Kernel where
  host_priv_kr := 0
  host_priv_port := 100
  default_kr := 0
  default_processor_set := 101
  sets_kr := 0
  sets_addr := 4096
  processor_sets :=
    [{ name := 200, priv_kr := 5, priv := 0, tasks_kr := 0, tasks_addr := 0, tasks := [] },
     { name := 201, priv_kr := 0, priv := 301, tasks_kr := 0, tasks_addr := 8192,
       tasks := [{ port := 0, pid_kr := 0, pid := 4321 }] }]
  task_for_pid := fun _ => (5, 0)
  atoi := atoi
  uid := 501
  euid := 501

/-! ## Lemmas on the matching loop -/

theorem findTask_none_iff (p : Int) (ts : List TaskEntry) :
    (findTask p ts).1 = none ↔ ∀ t ∈ ts, ¬ resolves p t := by
  induction ts with
  | nil => simp [findTask]
  | cons t ts ih =>
    by_cases h : t.pid_kr = KERN_SUCCESS ∧ t.pid = p
    · simp [findTask, h, resolves]
    · simp only [findTask, h, if_false, ih, List.mem_cons, forall_eq_or_imp]
      constructor
      · intro hh; exact ⟨h, hh⟩
      · intro hh; exact hh.2

theorem findTask_some (p : Int) (ts : List TaskEntry) (x : Nat)
    (h : (findTask p ts).1 = some x) : ∃ t ∈ ts, resolves p t ∧ t.port = x := by
  induction ts with
  | nil => simp [findTask] at h
  | cons t ts ih =>
    by_cases c : t.pid_kr = KERN_SUCCESS ∧ t.pid = p
    · simp only [findTask, c, and_self, if_true, Option.some.injEq] at h
      exact ⟨t, List.mem_cons_self _ _, c, h⟩
    · simp only [findTask, c, if_false] at h
      obtain ⟨u, hu, hr, hp⟩ := ih h
      exact ⟨u, List.mem_cons_of_mem _ hu, hr, hp⟩

theorem findTask_first (p : Int) (tpre : List TaskEntry) (t : TaskEntry)
    (tpost : List TaskEntry) (hpre : ∀ u ∈ tpre, ¬ resolves p u) (ht : resolves p t) :
    findTask p (tpre ++ t :: tpost) =
      (some t.port, (tpre ++ [t]).map (fun u => Event.pid_for_task u.port)) := by
  induction tpre with
  | nil =>
    have ht2 : t.pid_kr = KERN_SUCCESS ∧ t.pid = p := ht
    simp [findTask, ht2]
  | cons u us ih =>
    have hu : ¬ (u.pid_kr = KERN_SUCCESS ∧ u.pid = p) := hpre u (List.mem_cons_self _ _)
    have ih2 := ih (fun v hv => hpre v (List.mem_cons_of_mem _ hv))
    rw [List.cons_append, List.cons_append]
    simp only [findTask, hu, if_false, ih2, List.map_cons]

theorem findTask_trace_none (p : Int) (ts : List TaskEntry)
    (h : (findTask p ts).1 = none) :
    (findTask p ts).2 = ts.map (fun u => Event.pid_for_task u.port) := by
  induction ts with
  | nil => simp [findTask]
  | cons t ts ih =>
    by_cases c : t.pid_kr = KERN_SUCCESS ∧ t.pid = p
    · simp [findTask, c] at h
    · simp only [findTask, c, if_false] at h
      simp only [findTask, c, if_false, ih h, List.map_cons]

/-! ## Lemmas on the loop over processor sets -/

theorem scanSets_none_iff (h : Nat) (p : Int) (sets : List ProcessorSet) (i : Nat) :
    (scanSets h p sets i).1 = none ↔ ∀ s ∈ sets, ¬ hasTarget p s := by
  induction sets generalizing i with
  | nil => simp [scanSets]
  | cons s rest ih =>
    simp only [List.mem_cons, forall_eq_or_imp]
    by_cases c1 : s.priv_kr = KERN_SUCCESS
    · by_cases c2 : s.tasks_kr = KERN_SUCCESS
      · cases hf : (findTask p s.tasks).1 with
        | none =>
          have hn := (findTask_none_iff p s.tasks).1 hf
          simp only [scanSets, c1, c2, ne_eq, not_true_eq_false, if_false, hf, ih]
          constructor
          · intro hh
            refine ⟨?_, hh⟩
            rintro ⟨_, t, ht, hr⟩
            exact hn t ht hr
          · intro hh; exact hh.2
        | some x =>
          obtain ⟨t, ht, hr, _⟩ := findTask_some p s.tasks x hf
          simp only [scanSets, c1, c2, ne_eq, not_true_eq_false, if_false, hf]
          constructor
          · intro hh; simp at hh
          · intro hh; exact absurd ⟨⟨c1, c2⟩, t, ht, hr⟩ hh.1
      · simp only [scanSets, c1, c2, ne_eq, not_true_eq_false, if_false, not_false_eq_true,
          if_true, ih]
        constructor
        · intro hh
          exact ⟨fun hx => c2 hx.1.2, hh⟩
        · intro hh; exact hh.2
    · simp only [scanSets, c1, ne_eq, not_false_eq_true, if_true, ih]
      constructor
      · intro hh
        exact ⟨fun hx => c1 hx.1.1, hh⟩
      · intro hh; exact hh.2

theorem scanSets_some (h : Nat) (p : Int) (sets : List ProcessorSet) (i : Nat) (x : Nat)
    (hx : (scanSets h p sets i).1 = some x) :
    ∃ s ∈ sets, reachable s ∧ ∃ t ∈ s.tasks, resolves p t ∧ t.port = x := by
  induction sets generalizing i with
  | nil => simp [scanSets] at hx
  | cons s rest ih =>
    have lift : (∃ s2 ∈ rest, reachable s2 ∧ ∃ t ∈ s2.tasks, resolves p t ∧ t.port = x) →
        ∃ s2 ∈ s :: rest, reachable s2 ∧ ∃ t ∈ s2.tasks, resolves p t ∧ t.port = x := by
      rintro ⟨s2, hs2, hr⟩
      exact ⟨s2, List.mem_cons_of_mem _ hs2, hr⟩
    by_cases c1 : s.priv_kr = KERN_SUCCESS
    · by_cases c2 : s.tasks_kr = KERN_SUCCESS
      · cases hf : (findTask p s.tasks).1 with
        | none =>
          simp only [scanSets, c1, c2, ne_eq, not_true_eq_false, if_false, hf] at hx
          exact lift (ih _ hx)
        | some y =>
          simp only [scanSets, c1, c2, ne_eq, not_true_eq_false, if_false, hf,
            Option.some.injEq] at hx
          obtain ⟨t, ht, hr, hp⟩ := findTask_some p s.tasks y hf
          exact ⟨s, List.mem_cons_self _ _, ⟨c1, c2⟩, t, ht, hr, hp.trans hx⟩
      · simp only [scanSets, c1, c2, ne_eq, not_true_eq_false, if_false, not_false_eq_true,
          if_true] at hx
        exact lift (ih _ hx)
    · simp only [scanSets, c1, ne_eq, not_false_eq_true, if_true] at hx
      exact lift (ih _ hx)

theorem scanSets_append (h : Nat) (p : Int) (pre rest : List ProcessorSet) (i : Nat)
    (hpre : ∀ s ∈ pre, ¬ hasTarget p s) :
    scanSets h p (pre ++ rest) i =
      ((scanSets h p rest (i + pre.length)).1,
        (scanSets h p pre i).2 ++ (scanSets h p rest (i + pre.length)).2) := by
  induction pre generalizing i with
  | nil => simp [scanSets]
  | cons s pre ih =>
    have ih2 := ih (i + 1) (fun u hu => hpre u (List.mem_cons_of_mem _ hu))
    have hidx : i + 1 + pre.length = i + (s :: pre).length := by
      simp only [List.length_cons]; omega
    rw [hidx] at ih2
    rw [List.cons_append]
    by_cases c1 : s.priv_kr = KERN_SUCCESS
    · by_cases c2 : s.tasks_kr = KERN_SUCCESS
      · cases hf : (findTask p s.tasks).1 with
        | none =>
          simp only [scanSets, c1, c2, ne_eq, not_true_eq_false, if_false,
            hf, ih2, List.append_assoc]
        | some y =>
          obtain ⟨t, ht, hr, _⟩ := findTask_some p s.tasks y hf
          exact absurd ⟨⟨c1, c2⟩, t, ht, hr⟩ (hpre s (List.mem_cons_self _ _))
      · simp only [scanSets, c1, c2, ne_eq, not_true_eq_false, if_false,
          not_false_eq_true, if_true, ih2, List.append_assoc]
    · simp only [scanSets, c1, ne_eq, not_false_eq_true, if_true, ih2,
        List.append_assoc]

/-! ## Lemmas on the wrapper -/

theorem wrapper_some (k : Kernel) (p : Int) (hs : setupSucceeds k) (x : Nat)
    (hx : (scanSets k.host_priv_port p k.processor_sets 0).1 = some x) :
    task_for_pid_wrapper k p =
      { ret := x
        trace := setupCalls k ++ (scanSets k.host_priv_port p k.processor_sets 0).2 ++
          cleanup k.host_priv_port k.default_processor_set k.sets_addr
            k.processor_sets.length } := by
  obtain ⟨h1, h2, h3⟩ := hs
  simp only [task_for_pid_wrapper, h1, h2, h3, ne_eq, not_true_eq_false, if_false, hx,
    setupCalls]

theorem wrapper_none (k : Kernel) (p : Int) (hs : setupSucceeds k)
    (hx : (scanSets k.host_priv_port p k.processor_sets 0).1 = none) :
    task_for_pid_wrapper k p =
      { ret := MACH_PORT_NULL
        trace := setupCalls k ++ (scanSets k.host_priv_port p k.processor_sets 0).2 ++
          [Event.stderr (Msg.not_found p)] ++
          cleanup k.host_priv_port k.default_processor_set k.sets_addr
            k.processor_sets.length } := by
  obtain ⟨h1, h2, h3⟩ := hs
  simp only [task_for_pid_wrapper, h1, h2, h3, ne_eq, not_true_eq_false, if_false, hx,
    setupCalls]

/-- The scan of a set that holds the first match: the two acquisitions, the
`pid_for_task` calls up to and including the match, and the "found" line. -/
theorem scanSets_first (h : Nat) (p : Int) (s : ProcessorSet) (post : List ProcessorSet)
    (i : Nat) (tpre tpost : List TaskEntry) (t : TaskEntry) (hr : reachable s)
    (htasks : s.tasks = tpre ++ t :: tpost) (htpre : ∀ u ∈ tpre, ¬ resolves p u)
    (ht : resolves p t) :
    scanSets h p (s :: post) i =
      (some t.port,
        [Event.host_processor_set_priv h s.name, Event.processor_set_tasks s.priv] ++
        (tpre ++ [t]).map (fun u => Event.pid_for_task u.port) ++
        [Event.stdout (Msg.found p i)]) := by
  have hf := findTask_first p tpre t tpost htpre ht
  rw [← htasks] at hf
  obtain ⟨c1, c2⟩ := hr
  simp only [scanSets, c1, c2, ne_eq, not_true_eq_false, if_false, hf]

theorem scanSets_unreachable (h : Nat) (p : Int) (s : ProcessorSet)
    (post : List ProcessorSet) (i : Nat) (hfail : ¬ reachable s) :
    scanSets h p (s :: post) i =
      ((scanSets h p post (i + 1)).1,
        failedSetEvents h s i ++ (scanSets h p post (i + 1)).2) := by
  by_cases c1 : s.priv_kr = KERN_SUCCESS
  · have c2 : ¬ s.tasks_kr = KERN_SUCCESS := fun c => hfail ⟨c1, c⟩
    simp only [scanSets, failedSetEvents, c1, c2, ne_eq, not_true_eq_false, if_false,
      not_false_eq_true, if_true]
  · simp only [scanSets, failedSetEvents, c1, ne_eq, not_false_eq_true, if_true]

theorem releases_append (a b : List Event) : releases (a ++ b) = releases a ++ releases b := by
  simp [releases]

theorem releases_pid_calls (ts : List TaskEntry) :
    releases (ts.map (fun u => Event.pid_for_task u.port)) = [] := by
  induction ts with
  | nil => rfl
  | cons t ts ih =>
    simp only [releases] at ih
    simp [releases, isRelease, ih]

theorem releases_releaseSet (s : ProcessorSet) : releases (releaseSet s) = releaseSet s := by
  simp only [releases, List.filter_eq_self, releaseSet, List.mem_append, List.mem_map,
    List.mem_cons, List.mem_singleton]
  rintro e (⟨t, _, rfl⟩ | rfl | rfl | h)
  · rfl
  · rfl
  · rfl
  · simp at h

theorem releases_scan_no_match (h : Nat) (p : Int) (sets : List ProcessorSet) (i : Nat)
    (hreach : ∀ s ∈ sets, reachable s)
    (hno : ∀ s ∈ sets, ∀ t ∈ s.tasks, ¬ resolves p t) :
    releases (scanSets h p sets i).2 = releaseAll sets := by
  induction sets generalizing i with
  | nil => rfl
  | cons s rest ih =>
    obtain ⟨c1, c2⟩ := hreach s (List.mem_cons_self _ _)
    have hf : (findTask p s.tasks).1 = none :=
      (findTask_none_iff p s.tasks).2 (hno s (List.mem_cons_self _ _))
    have ih2 := ih (i + 1) (fun u hu => hreach u (List.mem_cons_of_mem _ hu))
      (fun u hu => hno u (List.mem_cons_of_mem _ hu))
    simp only [scanSets, c1, c2, ne_eq, not_true_eq_false, if_false, hf,
      findTask_trace_none p s.tasks hf, releases_append, releases_pid_calls,
      releases_releaseSet, ih2, releaseAll]
    simp [releases, isRelease]

theorem releaseAll_ports (sets : List ProcessorSet) :
    ((releaseAll sets).filter isPortRelease).length = taskTotal sets + sets.length := by
  induction sets with
  | nil => rfl
  | cons s rest ih =>
    have hmap : ∀ ts : List TaskEntry,
        ((ts.map (fun t => Event.mach_port_deallocate t.port)).filter isPortRelease).length
          = ts.length := by
      intro ts
      induction ts with
      | nil => rfl
      | cons t ts iht => simp [isPortRelease, iht]
    simp only [releaseAll, releaseSet, List.filter_append, List.length_append, hmap, ih,
      taskTotal, List.length_cons]
    simp [isPortRelease]
    omega

theorem releaseAll_arrays (sets : List ProcessorSet) :
    ((releaseAll sets).filter isArrayRelease).length = sets.length := by
  induction sets with
  | nil => rfl
  | cons s rest ih =>
    have hmap : ∀ ts : List TaskEntry,
        ((ts.map (fun t => Event.mach_port_deallocate t.port)).filter isArrayRelease).length
          = 0 := by
      intro ts
      induction ts with
      | nil => rfl
      | cons t ts iht => simp [isArrayRelease, iht]
    simp only [releaseAll, releaseSet, List.filter_append, List.length_append, hmap, ih,
      List.length_cons]
    simp [isArrayRelease]
    omega

/-! ## Lemmas on `main` -/

theorem strategyCalls_append (a b : List Event) :
    strategyCalls (a ++ b) = strategyCalls a + strategyCalls b := by
  simp [strategyCalls]

theorem strategyCalls_findTask (p : Int) (ts : List TaskEntry) :
    strategyCalls (findTask p ts).2 = 0 := by
  induction ts with
  | nil => rfl
  | cons t ts ih =>
    by_cases c : t.pid_kr = KERN_SUCCESS ∧ t.pid = p
    · simp [findTask, c, strategyCalls, isStrategyStart]
    · simp only [strategyCalls] at ih
      simp [findTask, c, strategyCalls, isStrategyStart, ih]

theorem strategyCalls_releaseSet (s : ProcessorSet) : strategyCalls (releaseSet s) = 0 := by
  have hmap : ∀ ts : List TaskEntry,
      strategyCalls (ts.map (fun t => Event.mach_port_deallocate t.port)) = 0 := by
    intro ts
    induction ts with
    | nil => rfl
    | cons t ts iht =>
      simp only [strategyCalls] at iht
      simp [strategyCalls, isStrategyStart, iht]
  rw [releaseSet, strategyCalls_append, hmap]
  simp [strategyCalls, isStrategyStart]

theorem strategyCalls_scanSets (h : Nat) (p : Int) (sets : List ProcessorSet) (i : Nat) :
    strategyCalls (scanSets h p sets i).2 = 0 := by
  induction sets generalizing i with
  | nil => rfl
  | cons s rest ih =>
    have ih2 := ih (i + 1)
    by_cases c1 : s.priv_kr = KERN_SUCCESS
    · by_cases c2 : s.tasks_kr = KERN_SUCCESS
      · cases hf : (findTask p s.tasks).1 with
        | none =>
          simp only [scanSets, c1, c2, ne_eq, not_true_eq_false, if_false, hf,
            strategyCalls_append, strategyCalls_findTask, strategyCalls_releaseSet, ih2]
          simp [strategyCalls, isStrategyStart]
        | some y =>
          simp only [scanSets, c1, c2, ne_eq, not_true_eq_false, if_false, hf,
            strategyCalls_append, strategyCalls_findTask]
          simp [strategyCalls, isStrategyStart]
      · simp only [scanSets, c1, c2, ne_eq, not_true_eq_false, if_false, not_false_eq_true,
          if_true, strategyCalls_append, ih2]
        simp [strategyCalls, isStrategyStart]
    · simp only [scanSets, c1, ne_eq, not_false_eq_true, if_true, strategyCalls_append, ih2]
      simp [strategyCalls, isStrategyStart]

theorem strategyCalls_cleanup (a b c n : Nat) : strategyCalls (cleanup a b c n) = 0 := by
  unfold cleanup
  split_ifs <;> simp [strategyCalls, isStrategyStart]

/-- Every run of the wrapper starts exactly one strategy: it calls
`host_get_host_priv_port` once and `task_for_pid` never. -/
theorem strategyCalls_wrapper (k : Kernel) (p : Int) :
    strategyCalls (task_for_pid_wrapper k p).trace = 1 := by
  unfold task_for_pid_wrapper
  split_ifs
  · rw [strategyCalls_append, strategyCalls_cleanup]
    simp [strategyCalls, isStrategyStart]
  · rw [strategyCalls_append, strategyCalls_cleanup]
    simp [strategyCalls, isStrategyStart]
  · rw [strategyCalls_append, strategyCalls_cleanup]
    simp [strategyCalls, isStrategyStart]
  · split
    · simp only [strategyCalls_append, strategyCalls_cleanup, strategyCalls_scanSets]
      simp [strategyCalls, isStrategyStart]
    · simp only [strategyCalls_append, strategyCalls_cleanup, strategyCalls_scanSets]
      simp [strategyCalls, isStrategyStart]

theorem strategyCalls_strategyEvents (k : Kernel) (m : String) (pid : Int) :
    strategyCalls (strategyEvents k m pid) = 1 := by
  unfold strategyEvents
  split_ifs
  · simp [strategyCalls, isStrategyStart]
  · exact strategyCalls_wrapper k pid

theorem strategyCalls_mainHead (m : String) (pid : Int) :
    strategyCalls (mainHead m pid) = 0 := by
  simp [mainHead, banner, strategyCalls, isStrategyStart]

/-- The run of `main` on accepted arguments: the head lines, the strategy, and
then either the success line with the release of the obtained port and exit
code 0, or the failure line and exit code 1. -/
theorem main_selected (k : Kernel) (argv : List String) (m : String) (pid : Int)
    (h : selected k argv m pid) :
    main k argv =
      match strategyPort k m pid with
      | some task =>
        { code := 0
          trace := mainHead m pid ++ strategyEvents k m pid ++
            [Event.stdout (successLine m task), Event.mach_port_deallocate task] }
      | none =>
        { code := 1
          trace := mainHead m pid ++ strategyEvents k m pid ++
            [Event.stdout (failLine k m pid)] } := by
  obtain ⟨hlen, hq, hp, hpid, hm⟩ := h
  match argv, hlen, hq, hp with
  | prog :: a1 :: rest, _, hq, hp =>
    simp only [isQuery, List.getElem?_cons_succ, List.getElem?_cons_zero, Option.some.injEq,
      not_or] at hq
    obtain ⟨q1, q2, q3⟩ := hq
    simp only [parsed, List.tail_cons] at hp
    have hnot : ¬ pid ≤ 1 := by omega
    have hw : ("wrapper" : String) ≠ "traditional" := by decide
    rcases hm with rfl | rfl
    · by_cases c : (k.task_for_pid pid).1 = KERN_SUCCESS
      · simp [main, q1, q2, q3, hp, hnot, strategyPort, c, runTraditional, mainHead,
          strategyEvents, successLine]
      · simp [main, q1, q2, q3, hp, hnot, strategyPort, c, runTraditional, mainHead,
          strategyEvents, failLine]
    · by_cases c : (task_for_pid_wrapper k pid).ret = MACH_PORT_NULL
      · simp [main, q1, q2, q3, hp, hnot, strategyPort, c, runWrapper, mainHead,
          strategyEvents, failLine, hw]
      · simp [main, q1, q2, q3, hp, hnot, strategyPort, c, runWrapper, mainHead,
          strategyEvents, successLine, hw]

/-- The run of `main` when no strategy is selected: a query answered with exit
code 0, or rejected arguments with exit code 2; no strategy is invoked. -/
theorem main_not_selected (k : Kernel) (argv : List String)
    (h : ¬ ∃ m pid, selected k argv m pid) :
    strategyCalls (main k argv).trace = 0 ∧
    (((main k argv).code = 0 ∧ isQuery argv ∧ ¬ argsRejected k argv) ∨
     ((main k argv).code = 2 ∧ ¬ isQuery argv ∧ argsRejected k argv)) := by
  match argv, h with
  | [], _ =>
    refine ⟨by simp [main, strategyCalls, isStrategyStart], Or.inr ⟨rfl, ?_, ?_⟩⟩
    · simp [isQuery]
    · exact Or.inl (by simp)
  | [prog], _ =>
    refine ⟨by simp [main, strategyCalls, isStrategyStart], Or.inr ⟨rfl, ?_, ?_⟩⟩
    · simp [isQuery]
    · exact Or.inl (by simp)
  | prog :: a1 :: rest, h =>
    by_cases q1 : a1 = "--whoami"
    · refine ⟨by simp [main, q1, strategyCalls, isStrategyStart], Or.inl ⟨?_, ?_, ?_⟩⟩
      · simp [main, q1]
      · simp [isQuery, q1]
      · simp [argsRejected, isQuery, q1]
    · by_cases q2 : a1 = "--help" ∨ a1 = "-h"
      · refine ⟨by simp [main, q1, q2, strategyCalls, isStrategyStart], Or.inl ⟨?_, ?_, ?_⟩⟩
        · simp [main, q1, q2]
        · simp only [isQuery, List.getElem?_cons_succ, List.getElem?_cons_zero,
            Option.some.injEq]
          exact Or.inr q2
        · simp only [argsRejected, isQuery, List.getElem?_cons_succ,
            List.getElem?_cons_zero, Option.some.injEq, List.length_cons]
          rintro (hl | ⟨hn, _⟩)
          · omega
          · exact hn (Or.inr q2)
      · have hnq : ¬ isQuery (prog :: a1 :: rest) := by
          simp only [isQuery, List.getElem?_cons_succ, List.getElem?_cons_zero,
            Option.some.injEq]
          rintro (hh | hh)
          · exact q1 hh
          · exact q2 hh
        have q2a : ¬ a1 = "--help" := fun hh => q2 (Or.inl hh)
        have q2b : ¬ a1 = "-h" := fun hh => q2 (Or.inr hh)
        cases hp : parseArgs k.atoi (a1 :: rest) "traditional" (-1) with
        | none =>
          refine ⟨by simp [main, q1, q2a, q2b, hp, strategyCalls, isStrategyStart],
            Or.inr ⟨by simp [main, q1, q2a, q2b, hp], hnq, Or.inr ⟨hnq, Or.inl ?_⟩⟩⟩
          simp [parsed, hp]
        | some mp =>
          obtain ⟨m, pid⟩ := mp
          have hpar : parsed k (prog :: a1 :: rest) = some (m, pid) := by
            simp [parsed, hp]
          by_cases hpid : pid ≤ 1
          · refine ⟨by simp [main, q1, q2a, q2b, hp, hpid, strategyCalls, isStrategyStart],
              Or.inr ⟨by simp [main, q1, q2a, q2b, hp, hpid], hnq,
                Or.inr ⟨hnq, Or.inr ⟨m, pid, hpar, Or.inl hpid⟩⟩⟩⟩
          · by_cases hm : m ≠ "traditional" ∧ m ≠ "wrapper"
            · refine ⟨by simp [main, q1, q2a, q2b, hp, hpid, hm, strategyCalls,
                  isStrategyStart],
                Or.inr ⟨by simp [main, q1, q2a, q2b, hp, hpid, hm], hnq,
                  Or.inr ⟨hnq, Or.inr ⟨m, pid, hpar, Or.inr hm⟩⟩⟩⟩
            · exfalso
              apply h
              refine ⟨m, pid, by simp, hnq, hpar, by omega, ?_⟩
              by_cases c : m = "traditional"
              · exact Or.inl c
              · by_cases c2 : m = "wrapper"
                · exact Or.inr c2
                · exact absurd ⟨c, c2⟩ hm

theorem selected_unique (k : Kernel) (argv : List String) (m m2 : String) (pid pid2 : Int)
    (h : selected k argv m pid) (h2 : selected k argv m2 pid2) : m = m2 ∧ pid = pid2 := by
  have e := h.2.2.1.symm.trans h2.2.2.1
  simp only [Option.some.injEq, Prod.mk.injEq] at e
  exact e

theorem selected_not_rejected (k : Kernel) (argv : List String) (m : String) (pid : Int)
    (h : selected k argv m pid) : ¬ argsRejected k argv := by
  obtain ⟨hlen, hq, hp, hpid, hm⟩ := h
  rintro (hl | ⟨_, hn | ⟨m2, pid2, hp2, hbad⟩⟩)
  · omega
  · rw [hp] at hn; simp at hn
  · rw [hp] at hp2
    simp only [Option.some.injEq, Prod.mk.injEq] at hp2
    obtain ⟨rfl, rfl⟩ := hp2
    rcases hbad with hb | ⟨hb1, hb2⟩
    · omega
    · rcases hm with hm | hm
      · exact hb1 hm
      · exact hb2 hm

/-! ## The argument loop against the argument vector -/

/-- Exit codes of `main` against the outcome of its own argument loop: 2
exactly when the loop's outcome is rejected and no strategy is invoked; 1
exactly when one strategy is invoked on the accepted outcome and obtains no
task port; 0 exactly when one strategy is invoked and obtains a task port, or
the invocation is a query.  Which argument vectors the loop rejects is the
subject of `parseArgs_pid` and `parseArgs_method`. -/
theorem main_exit_code_of_loop (k : Kernel) (argv : List String) :
    ((main k argv).code = 2 ↔
      argsRejected k argv ∧ strategyCalls (main k argv).trace = 0) ∧
    ((main k argv).code = 1 ↔
      strategyCalls (main k argv).trace = 1 ∧
        ∃ m pid, selected k argv m pid ∧ strategyPort k m pid = none) ∧
    ((main k argv).code = 0 ↔
      (strategyCalls (main k argv).trace = 1 ∧
        ∃ m pid task, selected k argv m pid ∧ strategyPort k m pid = some task) ∨
      (isQuery argv ∧ strategyCalls (main k argv).trace = 0)) := by
  by_cases hsel : ∃ m pid, selected k argv m pid
  · obtain ⟨m, pid, hs⟩ := hsel
    have hmain := main_selected k argv m pid hs
    have hnr := selected_not_rejected k argv m pid hs
    have hnq : ¬ isQuery argv := hs.2.1
    cases hport : strategyPort k m pid with
    | none =>
      rw [hport] at hmain
      have hcalls : strategyCalls (main k argv).trace = 1 := by
        rw [hmain]
        simp only [strategyCalls_append, strategyCalls_mainHead,
          strategyCalls_strategyEvents]
        simp [strategyCalls, isStrategyStart]
      have hcode : (main k argv).code = 1 := by rw [hmain]
      rw [hcode, hcalls]
      refine ⟨?_, ?_, ?_⟩
      · constructor
        · intro h; omega
        · intro h; exact absurd h.1 hnr
      · constructor
        · intro _; exact ⟨rfl, m, pid, hs, hport⟩
        · intro _; rfl
      · constructor
        · intro h; omega
        · rintro (⟨_, m2, pid2, task, hs2, hp2⟩ | ⟨hq, _⟩)
          · obtain ⟨rfl, rfl⟩ := selected_unique k argv m m2 pid pid2 hs hs2
            rw [hport] at hp2
            simp at hp2
          · exact absurd hq hnq
    | some task =>
      rw [hport] at hmain
      have hcalls : strategyCalls (main k argv).trace = 1 := by
        rw [hmain]
        simp only [strategyCalls_append, strategyCalls_mainHead,
          strategyCalls_strategyEvents]
        simp [strategyCalls, isStrategyStart]
      have hcode : (main k argv).code = 0 := by rw [hmain]
      rw [hcode, hcalls]
      refine ⟨?_, ?_, ?_⟩
      · constructor
        · intro h; omega
        · intro h; exact absurd h.1 hnr
      · constructor
        · intro h; omega
        · rintro ⟨_, m2, pid2, hs2, hp2⟩
          obtain ⟨rfl, rfl⟩ := selected_unique k argv m m2 pid pid2 hs hs2
          rw [hport] at hp2
          simp at hp2
      · constructor
        · intro _; exact Or.inl ⟨rfl, m, pid, task, hs, hport⟩
        · intro _; rfl
  · obtain ⟨hcalls, hcase⟩ := main_not_selected k argv hsel
    have hnone : ∀ m pid, ¬ selected k argv m pid := fun m pid h => hsel ⟨m, pid, h⟩
    rw [hcalls]
    rcases hcase with ⟨hcode, hq, hnr⟩ | ⟨hcode, hnq, hr⟩
    · rw [hcode]
      refine ⟨?_, ?_, ?_⟩
      · constructor
        · intro h; omega
        · intro h; exact absurd h.1 hnr
      · constructor
        · intro h; omega
        · intro h; omega
      · constructor
        · intro _; exact Or.inr ⟨hq, rfl⟩
        · intro _; rfl
    · rw [hcode]
      refine ⟨?_, ?_, ?_⟩
      · constructor
        · intro _; exact ⟨hr, rfl⟩
        · intro _; rfl
      · constructor
        · intro h; omega
        · intro h; omega
      · constructor
        · intro h; omega
        · rintro (⟨h, _⟩ | ⟨hq, _⟩)
          · omega
          · exact absurd hq hnq

/-! ## The claims about `task_for_pid_wrapper` -/

/-- C1 (evaluation at the failing input). With one processor set whose first
task is the target 4321 and whose second task is another process, the wrapper
returns the matched port 400 and leaves through the `goto cleanup` of line 83:
its releases are the host privileged port, the default processor set and the
processor-set array only.  The other task port 401 of the set, the set's task
array at 8192 and the set's privileged port 300 are never released. -/
theorem wrapper_match_leaks :
    (task_for_pid_wrapper kernelOneSet 4321).ret = 400 ∧
    (task_for_pid_wrapper kernelOneSet 4321).trace =
      [Event.host_get_host_priv_port, Event.processor_set_default 100,
       Event.host_processor_sets 100, Event.host_processor_set_priv 100 200,
       Event.processor_set_tasks 300, Event.pid_for_task 400,
       Event.stdout (Msg.found 4321 0), Event.mach_port_deallocate 100,
       Event.mach_port_deallocate 101, Event.vm_deallocate 4096 4] ∧
    Event.mach_port_deallocate 401 ∉ (task_for_pid_wrapper kernelOneSet 4321).trace ∧
    Event.vm_deallocate 8192 8 ∉ (task_for_pid_wrapper kernelOneSet 4321).trace ∧
    Event.mach_port_deallocate 300 ∉ (task_for_pid_wrapper kernelOneSet 4321).trace := by
  decide

/-- C2. When the host privileged port, the default processor set and the
processor-set list are acquired and the task ports of the reachable sets are
non-null, the wrapper returns `MACH_PORT_NULL` exactly when no reachable
processor set has a task entry on which `pid_for_task` succeeds with
`target_pid`. -/
theorem wrapper_null_iff (k : Kernel) (target_pid : Int)
    (hhost : k.host_priv_kr = KERN_SUCCESS) (hdefault : k.default_kr = KERN_SUCCESS)
    (hsets : k.sets_kr = KERN_SUCCESS)
    (hnn : ∀ s ∈ k.processor_sets, reachable s → ∀ t ∈ s.tasks, t.port ≠ MACH_PORT_NULL) :
    (task_for_pid_wrapper k target_pid).ret = MACH_PORT_NULL ↔
      ¬ ∃ s ∈ k.processor_sets, reachable s ∧ ∃ t ∈ s.tasks, resolves target_pid t := by
  have hs : setupSucceeds k := ⟨hhost, hdefault, hsets⟩
  cases hx : (scanSets k.host_priv_port target_pid k.processor_sets 0).1 with
  | none =>
    rw [wrapper_none k target_pid hs hx]
    have hno := (scanSets_none_iff _ _ _ _).1 hx
    simp only [true_iff]
    rintro ⟨s, hmem, hr⟩
    exact hno s hmem hr
  | some x =>
    rw [wrapper_some k target_pid hs x hx]
    obtain ⟨s, hmem, hr, t, ht, hres, hport⟩ := scanSets_some _ _ _ _ x hx
    constructor
    · intro h0
      exact absurd (hport.trans h0) (hnn s hmem hr t ht)
    · intro hno
      exact absurd ⟨s, hmem, hr, t, ht, hres⟩ hno

theorem wrapper_null_iff_witness :
    ((task_for_pid_wrapper kernelThreeSets 4321).ret = MACH_PORT_NULL ↔
      ¬ ∃ s ∈ kernelThreeSets.processor_sets,
        reachable s ∧ ∃ t ∈ s.tasks, resolves 4321 t) ∧
    (task_for_pid_wrapper kernelThreeSets 4321).ret = 401 :=
  ⟨wrapper_null_iff kernelThreeSets 4321 (by decide) (by decide) (by decide) (by decide),
    by decide⟩

/-- C3. When the setup succeeds, the first task entry that resolves to
`target_pid`, in the order set index then list index over the reachable sets,
is the one returned; the trace then holds the scan of the earlier sets, the two
acquisitions of the matching set, the `pid_for_task` calls up to and including
the match, the "found" line and the final cleanup, so that no later task entry
and no later set is inspected or acquired. -/
theorem wrapper_first_match (k : Kernel) (target_pid : Int) (hs : setupSucceeds k)
    (pre post : List ProcessorSet) (s : ProcessorSet) (tpre tpost : List TaskEntry)
    (t : TaskEntry) (hsets : k.processor_sets = pre ++ s :: post)
    (hpre : ∀ u ∈ pre, ¬ hasTarget target_pid u) (hr : reachable s)
    (htasks : s.tasks = tpre ++ t :: tpost) (htpre : ∀ u ∈ tpre, ¬ resolves target_pid u)
    (ht : resolves target_pid t) :
    (task_for_pid_wrapper k target_pid).ret = t.port ∧
    (task_for_pid_wrapper k target_pid).trace =
      setupCalls k ++ (scanSets k.host_priv_port target_pid pre 0).2 ++
      [Event.host_processor_set_priv k.host_priv_port s.name,
       Event.processor_set_tasks s.priv] ++
      (tpre ++ [t]).map (fun u => Event.pid_for_task u.port) ++
      [Event.stdout (Msg.found target_pid pre.length)] ++
      cleanup k.host_priv_port k.default_processor_set k.sets_addr
        k.processor_sets.length := by
  have hscan : scanSets k.host_priv_port target_pid k.processor_sets 0 =
      (some t.port,
        (scanSets k.host_priv_port target_pid pre 0).2 ++
        ([Event.host_processor_set_priv k.host_priv_port s.name,
          Event.processor_set_tasks s.priv] ++
        (tpre ++ [t]).map (fun u => Event.pid_for_task u.port) ++
        [Event.stdout (Msg.found target_pid pre.length)])) := by
    rw [hsets, scanSets_append _ _ _ _ _ hpre,
      scanSets_first _ _ s post _ tpre tpost t hr htasks htpre ht]
    simp
  have hx : (scanSets k.host_priv_port target_pid k.processor_sets 0).1 = some t.port := by
    rw [hscan]
  rw [wrapper_some k target_pid hs t.port hx, hscan]
  simp [List.append_assoc]

theorem wrapper_first_match_witness :
    (task_for_pid_wrapper kernelThreeSets 4321).ret = 401 ∧
    (task_for_pid_wrapper kernelThreeSets 4321).trace =
      [Event.host_get_host_priv_port, Event.processor_set_default 100,
       Event.host_processor_sets 100,
       Event.host_processor_set_priv 100 200, Event.stderr (Msg.failed_set_priv 0 5),
       Event.host_processor_set_priv 100 201, Event.processor_set_tasks 301,
       Event.stderr (Msg.failed_tasks 1 5), Event.mach_port_deallocate 301,
       Event.host_processor_set_priv 100 202, Event.processor_set_tasks 302,
       Event.pid_for_task 400, Event.pid_for_task 401,
       Event.stdout (Msg.found 4321 2),
       Event.mach_port_deallocate 100, Event.mach_port_deallocate 101,
       Event.vm_deallocate 4096 12] :=
  wrapper_first_match kernelThreeSets 4321 (by decide)
    [{ name := 200, priv_kr := 5, priv := 0, tasks_kr := 0, tasks_addr := 0, tasks := [] },
     { name := 201, priv_kr := 0, priv := 301, tasks_kr := 5, tasks_addr := 0, tasks := [] }]
    []
    { name := 202, priv_kr := 0, priv := 302, tasks_kr := 0, tasks_addr := 8192,
      tasks := [{ port := 400, pid_kr := 0, pid := 77 },
                { port := 401, pid_kr := 0, pid := 4321 },
                { port := 402, pid_kr := 0, pid := 4321 }] }
    [{ port := 400, pid_kr := 0, pid := 77 }]
    [{ port := 402, pid_kr := 0, pid := 4321 }]
    { port := 401, pid_kr := 0, pid := 4321 }
    rfl (by decide) (by decide) rfl (by decide) (by decide)

/-- C4 (counterexample). The first set refuses its privileged port and the
second, reachable, set holds a task entry that resolves to 4321 but carries
the null port name: the wrapper returns that entry's port, which is
`MACH_PORT_NULL`, not a non-null task port. -/
theorem wrapper_skips_failed_set_counterexample :
    setupSucceeds kernelNullPort ∧
    kernelNullPort.processor_sets =
      [{ name := 200, priv_kr := 5, priv := 0, tasks_kr := 0, tasks_addr := 0, tasks := [] },
       { name := 201, priv_kr := 0, priv := 301, tasks_kr := 0, tasks_addr := 8192,
         tasks := [{ port := 0, pid_kr := 0, pid := 4321 }] }] ∧
    ¬ reachable { name := 200, priv_kr := 5, priv := 0, tasks_kr := 0, tasks_addr := 0,
                  tasks := [] } ∧
    hasTarget 4321 { name := 201, priv_kr := 0, priv := 301, tasks_kr := 0,
                     tasks_addr := 8192,
                     tasks := [{ port := 0, pid_kr := 0, pid := 4321 }] } ∧
    (task_for_pid_wrapper kernelNullPort 4321).ret = MACH_PORT_NULL := by
  decide

/-- C4 (amended). When the setup succeeds and a set that is not reachable (its
`host_processor_set_priv` or its `processor_set_tasks` fails) is followed by a
reachable set holding the target, the wrapper returns a non-null task port
that resolves to `target_pid` (`pid_for_task` succeeding only on non-null
ports); and when the scan gets to the failing set, the trace holds for it the
failed call with its log line, no release after a failed
`host_processor_set_priv`, one release of the per-set privileged port after a
failed `processor_set_tasks`, and then the scan of the later sets.  The last
two parts state the releases made for the failing set: none, respectively the
per-set privileged port once. -/
theorem wrapper_skips_failed_set (k : Kernel) (target_pid : Int) (hs : setupSucceeds k)
    (pre post : List ProcessorSet) (s : ProcessorSet)
    (hsets : k.processor_sets = pre ++ s :: post) (hfail : ¬ reachable s)
    (hlater : ∃ m ∈ post, hasTarget target_pid m)
    (hwf : ∀ u ∈ k.processor_sets, reachable u → ∀ t ∈ u.tasks,
      t.pid_kr = KERN_SUCCESS → t.port ≠ MACH_PORT_NULL) :
    (task_for_pid_wrapper k target_pid).ret ≠ MACH_PORT_NULL ∧
    (∃ u ∈ k.processor_sets, reachable u ∧
      ∃ t ∈ u.tasks, resolves target_pid t ∧
        t.port = (task_for_pid_wrapper k target_pid).ret) ∧
    ((∀ u ∈ pre, ¬ hasTarget target_pid u) →
      (task_for_pid_wrapper k target_pid).trace =
        setupCalls k ++ (scanSets k.host_priv_port target_pid pre 0).2 ++
        failedSetEvents k.host_priv_port s pre.length ++
        (scanSets k.host_priv_port target_pid post (pre.length + 1)).2 ++
        cleanup k.host_priv_port k.default_processor_set k.sets_addr
          k.processor_sets.length) ∧
    (s.priv_kr ≠ KERN_SUCCESS →
      releases (failedSetEvents k.host_priv_port s pre.length) = []) ∧
    (s.priv_kr = KERN_SUCCESS →
      releases (failedSetEvents k.host_priv_port s pre.length) =
        [Event.mach_port_deallocate s.priv]) := by
  obtain ⟨m, hm, hmt⟩ := hlater
  have hne : (scanSets k.host_priv_port target_pid k.processor_sets 0).1 ≠ none := by
    intro hnone
    have hall := (scanSets_none_iff _ _ _ _).1 hnone
    refine hall m ?_ hmt
    rw [hsets]
    exact List.mem_append_right _ (List.mem_cons_of_mem _ hm)
  cases hx : (scanSets k.host_priv_port target_pid k.processor_sets 0).1 with
  | none => exact absurd hx hne
  | some x =>
    obtain ⟨u, hu, hru, t, ht, hres, hport⟩ := scanSets_some _ _ _ _ x hx
    rw [wrapper_some k target_pid hs x hx]
    refine ⟨?_, ⟨u, hu, hru, t, ht, hres, hport⟩, ?_, ?_, ?_⟩
    · intro h0
      exact hwf u hu hru t ht hres.1 (hport.trans h0)
    · intro hpre
      have hsplit := scanSets_append k.host_priv_port target_pid pre (s :: post) 0 hpre
      rw [scanSets_unreachable _ _ s post _ hfail, ← hsets] at hsplit
      rw [hsplit]
      simp [List.append_assoc]
    · intro c1
      simp [failedSetEvents, c1, releases, isRelease]
    · intro c1
      simp [failedSetEvents, c1, releases, isRelease]

theorem wrapper_skips_failed_set_witness :
    (task_for_pid_wrapper kernelThreeSets 4321).ret ≠ MACH_PORT_NULL ∧
    (∃ u ∈ kernelThreeSets.processor_sets, reachable u ∧
      ∃ t ∈ u.tasks, resolves 4321 t ∧
        t.port = (task_for_pid_wrapper kernelThreeSets 4321).ret) ∧
    (task_for_pid_wrapper kernelThreeSets 4321).trace =
      setupCalls kernelThreeSets ++
      (scanSets kernelThreeSets.host_priv_port 4321
        [{ name := 200, priv_kr := 5, priv := 0, tasks_kr := 0, tasks_addr := 0,
           tasks := [] }] 0).2 ++
      failedSetEvents kernelThreeSets.host_priv_port
        { name := 201, priv_kr := 0, priv := 301, tasks_kr := 5, tasks_addr := 0,
          tasks := [] } 1 ++
      (scanSets kernelThreeSets.host_priv_port 4321
        [{ name := 202, priv_kr := 0, priv := 302, tasks_kr := 0, tasks_addr := 8192,
           tasks := [{ port := 400, pid_kr := 0, pid := 77 },
                     { port := 401, pid_kr := 0, pid := 4321 },
                     { port := 402, pid_kr := 0, pid := 4321 }] }] 2).2 ++
      cleanup kernelThreeSets.host_priv_port kernelThreeSets.default_processor_set
        kernelThreeSets.sets_addr kernelThreeSets.processor_sets.length ∧
    releases (failedSetEvents kernelThreeSets.host_priv_port
      { name := 201, priv_kr := 0, priv := 301, tasks_kr := 5, tasks_addr := 0,
        tasks := [] } 1) = [Event.mach_port_deallocate 301] :=
  have h := wrapper_skips_failed_set kernelThreeSets 4321 (by decide)
    [{ name := 200, priv_kr := 5, priv := 0, tasks_kr := 0, tasks_addr := 0, tasks := [] }]
    [{ name := 202, priv_kr := 0, priv := 302, tasks_kr := 0, tasks_addr := 8192,
       tasks := [{ port := 400, pid_kr := 0, pid := 77 },
                 { port := 401, pid_kr := 0, pid := 4321 },
                 { port := 402, pid_kr := 0, pid := 4321 }] }]
    { name := 201, priv_kr := 0, priv := 301, tasks_kr := 5, tasks_addr := 0, tasks := [] }
    rfl (by decide) (by decide) (by decide)
  ⟨h.1, h.2.1, h.2.2.1 (by decide), h.2.2.2.2 (by decide)⟩

/-- C9 (counterexample). With no kernel failure and no processor set, the
wrapper performs three releases, not two: besides the host privileged port and
the processor-set array it releases the default processor set port. -/
theorem wrapper_no_match_releases_counterexample :
    setupSucceeds kernelNoSets ∧ kernelNoSets.processor_sets = [] ∧
    (task_for_pid_wrapper kernelNoSets 4321).ret = MACH_PORT_NULL ∧
    releases (task_for_pid_wrapper kernelNoSets 4321).trace =
      [Event.mach_port_deallocate 100, Event.mach_port_deallocate 101,
       Event.vm_deallocate 4096 0] ∧
    ¬ ((releases (task_for_pid_wrapper kernelNoSets 4321).trace).length = 2) ∧
    ¬ (((task_for_pid_wrapper kernelNoSets 4321).trace.filter isPortRelease).length =
        taskTotal kernelNoSets.processor_sets + kernelNoSets.processor_sets.length + 1) := by
  decide

/-- C9 (amended). With no kernel failure, non-null host privileged port,
default processor set port and processor-set array, and no task entry
resolving to `target_pid`, over `n` processor sets with task counts
`c_0 .. c_(n-1)` the wrapper returns `MACH_PORT_NULL` and its releases are, in
order: for each set its task ports, its task array and its privileged port;
then the host privileged port, the default processor set port and the
processor-set array.  That is `c_0 + .. + c_(n-1) + n + 2` port releases and
`n + 1` array releases. -/
theorem wrapper_no_match_releases (k : Kernel) (target_pid : Int) (hs : setupSucceeds k)
    (hhost : k.host_priv_port ≠ MACH_PORT_NULL)
    (hdefault : k.default_processor_set ≠ MACH_PORT_NULL) (haddr : k.sets_addr ≠ NULL)
    (hreach : ∀ s ∈ k.processor_sets, reachable s)
    (hno : ∀ s ∈ k.processor_sets, ∀ t ∈ s.tasks, ¬ resolves target_pid t) :
    (task_for_pid_wrapper k target_pid).ret = MACH_PORT_NULL ∧
    releases (task_for_pid_wrapper k target_pid).trace =
      releaseAll k.processor_sets ++
      [Event.mach_port_deallocate k.host_priv_port,
       Event.mach_port_deallocate k.default_processor_set,
       Event.vm_deallocate k.sets_addr (k.processor_sets.length * sizeof_mach_port_t)] ∧
    ((releases (task_for_pid_wrapper k target_pid).trace).filter isPortRelease).length =
      taskTotal k.processor_sets + k.processor_sets.length + 2 ∧
    ((releases (task_for_pid_wrapper k target_pid).trace).filter isArrayRelease).length =
      k.processor_sets.length + 1 := by
  have hx : (scanSets k.host_priv_port target_pid k.processor_sets 0).1 = none := by
    rw [scanSets_none_iff]
    rintro s hmem ⟨_, t, ht, hr⟩
    exact hno s hmem t ht hr
  have hrel : releases (task_for_pid_wrapper k target_pid).trace =
      releaseAll k.processor_sets ++
      [Event.mach_port_deallocate k.host_priv_port,
       Event.mach_port_deallocate k.default_processor_set,
       Event.vm_deallocate k.sets_addr (k.processor_sets.length * sizeof_mach_port_t)] := by
    rw [wrapper_none k target_pid hs hx]
    simp only [releases_append, releases_scan_no_match _ _ _ _ hreach hno, cleanup, hhost,
      hdefault, haddr, ne_eq, not_false_eq_true, if_true]
    simp [releases, isRelease, setupCalls]
  refine ⟨?_, hrel, ?_, ?_⟩
  · rw [wrapper_none k target_pid hs hx]
  · rw [hrel, List.filter_append, List.length_append, releaseAll_ports]
    simp [isPortRelease]
  · rw [hrel, List.filter_append, List.length_append, releaseAll_arrays]
    simp [isArrayRelease]

theorem wrapper_no_match_releases_witness :
    (task_for_pid_wrapper kernelTwoSets 4321).ret = MACH_PORT_NULL ∧
    releases (task_for_pid_wrapper kernelTwoSets 4321).trace =
      [Event.mach_port_deallocate 400, Event.mach_port_deallocate 401,
       Event.vm_deallocate 8192 8, Event.mach_port_deallocate 300,
       Event.mach_port_deallocate 402, Event.mach_port_deallocate 403,
       Event.vm_deallocate 12288 8, Event.mach_port_deallocate 301,
       Event.mach_port_deallocate 100, Event.mach_port_deallocate 101,
       Event.vm_deallocate 4096 8] ∧
    ((releases (task_for_pid_wrapper kernelTwoSets 4321).trace).filter isPortRelease).length
      = 4 + 2 + 2 ∧
    ((releases (task_for_pid_wrapper kernelTwoSets 4321).trace).filter isArrayRelease).length
      = 2 + 1 :=
  wrapper_no_match_releases kernelTwoSets 4321 (by decide) (by decide) (by decide)
    (by decide) (by decide) (by decide)

/-- C10 (counterexample). The host privileged port is acquired, the
processor-set list would be acquired and its only set is reachable and holds
the target 4321, but `processor_set_default` fails: the wrapper returns
`MACH_PORT_NULL` without calling `host_processor_sets` and without visiting
any processor set.  A third failure is fatal. -/
theorem wrapper_fatal_failures_counterexample :
    kernelDefaultFails.host_priv_kr = KERN_SUCCESS ∧
    kernelDefaultFails.sets_kr = KERN_SUCCESS ∧
    (∃ s ∈ kernelDefaultFails.processor_sets, hasTarget 4321 s) ∧
    (task_for_pid_wrapper kernelDefaultFails 4321).ret = MACH_PORT_NULL ∧
    (task_for_pid_wrapper kernelDefaultFails 4321).trace =
      [Event.host_get_host_priv_port, Event.processor_set_default 100,
       Event.stderr (Msg.failed_default_set 5), Event.mach_port_deallocate 100] := by
  decide

/-- C10 (amended). Three failures are fatal to the wrapper.  If the host
privileged port is not acquired, it returns `MACH_PORT_NULL` after the log
line, with no further kernel call and no release.  If the default processor
set is not acquired, it releases the (non-null) host privileged port once,
makes no further acquisition and returns `MACH_PORT_NULL`.  If the
processor-set list is not acquired, it releases the (non-null) host privileged
port once and the default processor set port when that is non-null, visits no
processor set and returns `MACH_PORT_NULL`.  When all three succeed the sets
are enumerated: every set up to and including the first one holding the target
is visited. -/
theorem wrapper_fatal_failures (k : Kernel) (target_pid : Int) :
    (k.host_priv_kr ≠ KERN_SUCCESS →
      (task_for_pid_wrapper k target_pid).ret = MACH_PORT_NULL ∧
      (task_for_pid_wrapper k target_pid).trace =
        [Event.host_get_host_priv_port,
         Event.stderr (Msg.failed_host_priv k.host_priv_kr)]) ∧
    (k.host_priv_kr = KERN_SUCCESS → k.default_kr ≠ KERN_SUCCESS →
      k.host_priv_port ≠ MACH_PORT_NULL →
      (task_for_pid_wrapper k target_pid).ret = MACH_PORT_NULL ∧
      (task_for_pid_wrapper k target_pid).trace =
        [Event.host_get_host_priv_port, Event.processor_set_default k.host_priv_port,
         Event.stderr (Msg.failed_default_set k.default_kr),
         Event.mach_port_deallocate k.host_priv_port]) ∧
    (k.host_priv_kr = KERN_SUCCESS → k.default_kr = KERN_SUCCESS →
      k.sets_kr ≠ KERN_SUCCESS → k.host_priv_port ≠ MACH_PORT_NULL →
      (task_for_pid_wrapper k target_pid).ret = MACH_PORT_NULL ∧
      (task_for_pid_wrapper k target_pid).trace =
        [Event.host_get_host_priv_port, Event.processor_set_default k.host_priv_port,
         Event.host_processor_sets k.host_priv_port,
         Event.stderr (Msg.failed_processor_sets k.sets_kr),
         Event.mach_port_deallocate k.host_priv_port] ++
        (if k.default_processor_set ≠ MACH_PORT_NULL then
          [Event.mach_port_deallocate k.default_processor_set] else [])) ∧
    (setupSucceeds k → ∀ (pre post : List ProcessorSet) (s : ProcessorSet),
      k.processor_sets = pre ++ s :: post → (∀ u ∈ pre, ¬ hasTarget target_pid u) →
      Event.host_processor_set_priv k.host_priv_port s.name ∈
        (task_for_pid_wrapper k target_pid).trace) := by
  refine ⟨?_, ?_, ?_, ?_⟩
  · intro h1
    simp [task_for_pid_wrapper, h1, cleanup, MACH_PORT_NULL, NULL]
  · intro h1 h2 h3
    simp [task_for_pid_wrapper, h1, h2, h3, cleanup, NULL]
  · intro h1 h2 h3 h4
    simp [task_for_pid_wrapper, h1, h2, h3, h4, cleanup, NULL]
  · intro hs pre post s hsets hpre
    have hsplit := scanSets_append k.host_priv_port target_pid pre (s :: post) 0 hpre
    rw [← hsets] at hsplit
    have hhead : Event.host_processor_set_priv k.host_priv_port s.name ∈
        (scanSets k.host_priv_port target_pid (s :: post) (0 + pre.length)).2 := by
      by_cases c1 : s.priv_kr = KERN_SUCCESS
      · by_cases c2 : s.tasks_kr = KERN_SUCCESS
        · cases hf : (findTask target_pid s.tasks).1 with
          | none =>
            simp [scanSets, c1, c2, hf]
          | some y =>
            simp [scanSets, c1, c2, hf]
        · simp [scanSets, c1, c2]
      · simp [scanSets, c1]
    have hin : Event.host_processor_set_priv k.host_priv_port s.name ∈
        (scanSets k.host_priv_port target_pid k.processor_sets 0).2 := by
      rw [hsplit]
      exact List.mem_append_right _ hhead
    cases hx : (scanSets k.host_priv_port target_pid k.processor_sets 0).1 with
    | none =>
      rw [wrapper_none k target_pid hs hx]
      simp only [List.mem_append]
      exact Or.inl (Or.inl (Or.inr hin))
    | some x =>
      rw [wrapper_some k target_pid hs x hx]
      simp only [List.mem_append]
      exact Or.inl (Or.inr hin)

theorem wrapper_fatal_failures_witness :
    ((task_for_pid_wrapper { kernelOneSet with host_priv_kr := 5 } 4321).ret
        = MACH_PORT_NULL ∧
      (task_for_pid_wrapper { kernelOneSet with host_priv_kr := 5 } 4321).trace =
        [Event.host_get_host_priv_port, Event.stderr (Msg.failed_host_priv 5)]) ∧
    ((task_for_pid_wrapper kernelDefaultFails 4321).ret = MACH_PORT_NULL ∧
      (task_for_pid_wrapper kernelDefaultFails 4321).trace =
        [Event.host_get_host_priv_port, Event.processor_set_default 100,
         Event.stderr (Msg.failed_default_set 5), Event.mach_port_deallocate 100]) ∧
    ((task_for_pid_wrapper { kernelOneSet with sets_kr := 5 } 4321).ret = MACH_PORT_NULL ∧
      (task_for_pid_wrapper { kernelOneSet with sets_kr := 5 } 4321).trace =
        [Event.host_get_host_priv_port, Event.processor_set_default 100,
         Event.host_processor_sets 100, Event.stderr (Msg.failed_processor_sets 5),
         Event.mach_port_deallocate 100, Event.mach_port_deallocate 101]) ∧
    Event.host_processor_set_priv 100 202 ∈ (task_for_pid_wrapper kernelThreeSets 4321).trace :=
  ⟨(wrapper_fatal_failures { kernelOneSet with host_priv_kr := 5 } 4321).1 (by decide),
   (wrapper_fatal_failures kernelDefaultFails 4321).2.1 (by decide) (by decide) (by decide),
   (wrapper_fatal_failures { kernelOneSet with sets_kr := 5 } 4321).2.2.1
     (by decide) (by decide) (by decide) (by decide),
   (wrapper_fatal_failures kernelThreeSets 4321).2.2.2 (by decide)
     [{ name := 200, priv_kr := 5, priv := 0, tasks_kr := 0, tasks_addr := 0, tasks := [] },
      { name := 201, priv_kr := 0, priv := 301, tasks_kr := 5, tasks_addr := 0, tasks := [] }]
     []
     { name := 202, priv_kr := 0, priv := 302, tasks_kr := 0, tasks_addr := 8192,
       tasks := [{ port := 400, pid_kr := 0, pid := 77 },
                 { port := 401, pid_kr := 0, pid := 4321 },
                 { port := 402, pid_kr := 0, pid := 4321 }] }
     rfl (by decide)⟩

/-! ## The claims about `main` -/

/-- C5 (evaluation at the failing input). The process identifier argument
`-1` parses to -1, the value `pid` has while unset, so line 147 lets the next
argument `500` overwrite it: `main` accepts the arguments, calls
`task_for_pid` on 500 and exits with 1 instead of rejecting with 2. -/
theorem main_minus_one_overwritten :
    kernelOneSet.atoi "-1" = -1 ∧
    main kernelOneSet ["check_task", "-1", "500"] =
      { code := 1
        trace := [Event.stdout (Msg.target_pid 500), Event.stdout (Msg.method "traditional"),
                  Event.stdout Msg.separator, Event.stdout Msg.trying_traditional,
                  Event.task_for_pid 500, Event.stdout (Msg.fail_task_for_pid 5)] } := by
  decide

/-- C8. A run of `main` that exits with 0 without being a query obtained
exactly one task port from the selected strategy, and its trace is: the lines
printed by `main` (no release among them), the actions of the strategy, the
success line naming the port, and one `mach_port_deallocate` of that port as
the last action.  A run that exits with 1 ran the selected strategy, which
obtained no port, and `main` itself only printed lines: it released nothing. -/
theorem main_releases_task (k : Kernel) (argv : List String) :
    ((main k argv).code = 0 → ¬ isQuery argv →
      ∃ m pid task, selected k argv m pid ∧ strategyPort k m pid = some task ∧
        releases (mainHead m pid) = [] ∧
        (main k argv).trace = mainHead m pid ++ strategyEvents k m pid ++
          [Event.stdout (successLine m task), Event.mach_port_deallocate task]) ∧
    ((main k argv).code = 1 →
      ∃ m pid, selected k argv m pid ∧ strategyPort k m pid = none ∧
        releases (mainHead m pid) = [] ∧
        (main k argv).trace = mainHead m pid ++ strategyEvents k m pid ++
          [Event.stdout (failLine k m pid)]) := by
  have hhead : ∀ (m : String) (pid : Int), releases (mainHead m pid) = [] := by
    intro m pid
    simp [releases, mainHead, banner, isRelease]
  by_cases hsel : ∃ m pid, selected k argv m pid
  · obtain ⟨m, pid, hs⟩ := hsel
    have hmain := main_selected k argv m pid hs
    cases hport : strategyPort k m pid with
    | none =>
      rw [hport] at hmain
      constructor
      · intro hcode
        rw [hmain] at hcode
        simp at hcode
      · intro _
        exact ⟨m, pid, hs, hport, hhead m pid, by rw [hmain]⟩
    | some task =>
      rw [hport] at hmain
      constructor
      · intro _ _
        exact ⟨m, pid, task, hs, hport, hhead m pid, by rw [hmain]⟩
      · intro hcode
        rw [hmain] at hcode
        simp at hcode
  · obtain ⟨_, hcase⟩ := main_not_selected k argv hsel
    rcases hcase with ⟨hcode, hq, _⟩ | ⟨hcode, _, _⟩
    · constructor
      · intro _ hnq; exact absurd hq hnq
      · intro h; rw [hcode] at h; omega
    · constructor
      · intro h; rw [hcode] at h; omega
      · intro h; rw [hcode] at h; omega

theorem main_releases_task_witness :
    (∃ m pid task,
      selected kernelOneSet ["check_task", "--method", "wrapper", "4321"] m pid ∧
      strategyPort kernelOneSet m pid = some task ∧
      releases (mainHead m pid) = [] ∧
      (main kernelOneSet ["check_task", "--method", "wrapper", "4321"]).trace =
        mainHead m pid ++ strategyEvents kernelOneSet m pid ++
          [Event.stdout (successLine m task), Event.mach_port_deallocate task]) ∧
    (∃ m pid, selected kernelOneSet ["check_task", "4321"] m pid ∧
      strategyPort kernelOneSet m pid = none ∧
      releases (mainHead m pid) = [] ∧
      (main kernelOneSet ["check_task", "4321"]).trace =
        mainHead m pid ++ strategyEvents kernelOneSet m pid ++
          [Event.stdout (failLine kernelOneSet m pid)]) :=
  ⟨(main_releases_task kernelOneSet ["check_task", "--method", "wrapper", "4321"]).1
      (by decide) (by decide),
   (main_releases_task kernelOneSet ["check_task", "4321"]).2 (by decide)⟩

end CheckTask
